import Mathlib

-- Verification of the SB8200 exporter's collection pipeline (sb8200_exporter.py).
-- The pipeline is embedded shallowly: XML elements become association lists of
-- (tag, text) pairs, HTTP exchanges become an explicit environment of outcomes,
-- and the prometheus_client collaborator is modelled abstractly as a sink of
-- (name, help, labels, value) samples, per its role as an external collaborator.
-- Numeric values are modelled as exact rationals; no claim depends on binary
-- floating-point rounding.

set_option maxHeartbeats 1000000

namespace SB8200

-- One parsed XML element: its children as (tag, text) pairs in document order.
-- `findtext` models lxml `Element.findtext(tag)`: the text of the first child
-- with that tag ("" when the child has no content), or None when absent.
abbrev Elem := List (String × String)

def findtext (e : Elem) (tag : String) : Option String :=
  (e.find? (fun p => p.1 == tag)).map Prod.snd

-- Models `element.find(tag) is not None`.
def findPresent (e : Elem) (tag : String) : Bool :=
  (e.find? (fun p => p.1 == tag)).isSome

-- Python truthiness of an optional string: None and "" are falsy.
def truthy : Option String → Bool
  | none => false
  | some s => !s.isEmpty

-- Python `a or b` on findtext results: the left value wins iff it is truthy.
def pyOr (a b : Option String) : Option String :=
  match a with
  | some s => if s.isEmpty then b else some s
  | none => b

-- Python `a or d` where the right operand is a string literal default.
def orElseStr (a : Option String) (d : String) : String :=
  match a with
  | some s => if s.isEmpty then d else s
  | none => d

-- Characters of `s` with leading and trailing whitespace removed,
-- as Python numeric constructors do before parsing.
def stripWs (s : String) : List Char :=
  ((s.data.dropWhile Char.isWhitespace).reverse.dropWhile Char.isWhitespace).reverse

def digitsToNat (ds : List Char) : Nat :=
  ds.foldl (fun a c => a * 10 + (c.toNat - 48)) 0

-- Python `int(s)`: optional sign followed by decimal digits only.
def pyInt? (s : String) : Option Int :=
  match stripWs s with
  | [] => none
  | '+' :: rest =>
      if rest.length ≠ 0 ∧ rest.all Char.isDigit then some (Int.ofNat (digitsToNat rest)) else none
  | '-' :: rest =>
      if rest.length ≠ 0 ∧ rest.all Char.isDigit then some (-(Int.ofNat (digitsToNat rest))) else none
  | cs => if cs.all Char.isDigit then some (Int.ofNat (digitsToNat cs)) else none

-- Exponent suffix of a Python float literal: optional sign then digits.
def expApply (m : Rat) (cs : List Char) : Option Rat :=
  let signSplit : Bool × List Char :=
    match cs with
    | '+' :: r => (false, r)
    | '-' :: r => (true, r)
    | r => (false, r)
  let ds := signSplit.2.takeWhile Char.isDigit
  let r := signSplit.2.dropWhile Char.isDigit
  if ds.length = 0 ∨ r.length ≠ 0 then none
  else
    let k := digitsToNat ds
    some (if signSplit.1 then m / (((10 ^ k : Nat) : Int) : Rat) else m * (((10 ^ k : Nat) : Int) : Rat))

-- Unsigned part of a Python float literal: digits, optional point and
-- fraction digits, optional exponent. (inf/nan spellings are not modelled;
-- no payload in this development uses them.)
def pyFloatCore (cs : List Char) : Option Rat :=
  let ip := cs.takeWhile Char.isDigit
  let r1 := cs.dropWhile Char.isDigit
  let fracSplit : List Char × List Char :=
    match r1 with
    | '.' :: rest => (rest.takeWhile Char.isDigit, rest.dropWhile Char.isDigit)
    | _ => ([], r1)
  let fp := fracSplit.1
  let r2 := fracSplit.2
  if ip.length + fp.length = 0 then none
  else
    let mant : Rat := mkRat (Int.ofNat (digitsToNat (ip ++ fp))) (10 ^ fp.length)
    match r2 with
    | [] => some mant
    | 'e' :: rest => expApply mant rest
    | 'E' :: rest => expApply mant rest
    | _ => none

-- Python `float(s)` on ordinary decimal notation, as an exact rational.
def pyFloat? (s : String) : Option Rat :=
  match stripWs s with
  | [] => none
  | '+' :: rest => pyFloatCore rest
  | '-' :: rest => (pyFloatCore rest).map Neg.neg
  | cs => pyFloatCore cs

-- Python `s.split()`: split on whitespace runs, discarding empty tokens.
def splitWsAux : List Char → List Char → List String
  | [], acc => if acc.isEmpty then [] else [⟨acc.reverse⟩]
  | c :: rest, acc =>
      if c.isWhitespace then
        (if acc.isEmpty then [] else [⟨acc.reverse⟩]) ++ splitWsAux rest []
      else splitWsAux rest (c :: acc)

def pySplit (s : String) : List String :=
  splitWsAux s.data []

-- Python `s.lower()`; the lock vocabulary is ASCII, and Char.toLower maps
-- exactly the ASCII uppercase letters.
def lowerStr (s : String) : String :=
  ⟨s.data.map Char.toLower⟩

def beginsWith : List Char → List Char → Bool
  | [], _ => true
  | _ :: _, [] => false
  | a :: as, b :: bs => a == b && beginsWith as bs

def containsSub (needle : List Char) : List Char → Bool
  | [] => beginsWith needle []
  | c :: rest => beginsWith needle (c :: rest) || containsSub needle rest

-- Python `needle in hay` on strings (substring containment).
def strContains (hay needle : String) : Bool :=
  containsSub needle.data hay.data

-- Canonical output unit handed to the metrics collaborator: one call of
-- Gauge(name, help, labels.keys(), registry=...).labels(**labels).set(value).
structure MetricSample where
  name : String
  help : String
  labels : List (String × String)
  value : Rat
deriving DecidableEq, Repr

-- Numeric coercion `float(field or 0)`: an absent or empty field is coerced
-- to 0 (never raising), a non-empty string goes through float parsing.
def coerceNum (o : Option String) : Option Rat :=
  match o with
  | some s => if s.isEmpty then some 0 else pyFloat? s
  | none => some 0

-- Label fallback `field if field else "unknown"`.
def labelOr (o : Option String) : String :=
  if truthy o then o.getD "unknown" else "unknown"

-- Lock gauge value: `1.0 if (field or "").lower() in ["1","yes","locked"] else 0.0`.
def lockedValue (locked : Option String) : Rat :=
  let lv := lowerStr (orElseStr locked "")
  if lv = "1" ∨ lv = "yes" ∨ lv = "locked" then 1 else 0

-- A sample guarded by a try/except ValueError around one float(...) call.
def optSample (nm hl : String) (L : List (String × String)) (v? : Option Rat) : List MetricSample :=
  match v? with
  | some v => [⟨nm, hl, L, v⟩]
  | none => []

-- The downstream error counters are parsed inside a single try block:
-- `corrected = int(..)` then `uncorrectables = int(..)` both run before either
-- Gauge is produced, so a ValueError from either parse suppresses both samples.
def counterSamples (L : List (String × String)) (c? u? : Option Int) : List MetricSample :=
  match c?, u? with
  | some c, some u =>
      [⟨"modem_downstream_corrected", "Corrected Codewords", L, (c : Rat)⟩,
       ⟨"modem_downstream_uncorrectable", "Uncorrectable Codewords", L, (u : Rat)⟩]
  | _, _ => []

-- One downstream channel record, as yielded by parse_downstream.
structure DownstreamRec where
  chid : Option String
  locked : Option String
  modulation : Option String
  frequency : Option String
  power : Option String
  snr : Option String
  corrected : String
  uncorrectables : String
deriving DecidableEq, Repr

def parse_downstream_elem (ds : Elem) : DownstreamRec where
  chid := pyOr (findtext ds "chid") (findtext ds "dsid")
  locked := pyOr (findtext ds "IsLocked") (findtext ds "ofdmIsLocked")
  modulation := pyOr (findtext ds "mod") (findtext ds "ofdmModulation")
  frequency := pyOr (findtext ds "freq") (findtext ds "plcFrequency")
  power := pyOr (findtext ds "pow") (findtext ds "PLCPower")
  snr := pyOr (findtext ds "snr") (findtext ds "PlcScAvgMer")
  corrected := orElseStr (pyOr (findtext ds "correctable") (findtext ds "ofdmCorrected")) "0"
  uncorrectables := orElseStr (pyOr (findtext ds "uncorrectable") (findtext ds "ofdmUncorrectable")) "0"

def dsLabels (d : DownstreamRec) : List (String × String) :=
  [("channel", labelOr d.chid), ("modulation", labelOr d.modulation)]

-- The per-record downstream gauge emissions, in source order:
-- power, SNR, corrected+uncorrectable, lock status.
def normalize_downstream (d : DownstreamRec) : List MetricSample :=
  let L := dsLabels d
  optSample "modem_downstream_power_dbmv" "Downstream Power" L (coerceNum d.power)
    ++ optSample "modem_downstream_snr_db" "Downstream SNR" L (coerceNum d.snr)
    ++ counterSamples L (pyInt? d.corrected) (pyInt? d.uncorrectables)
    ++ [⟨"modem_downstream_locked", "Channel Locked (1 if locked)", L, lockedValue d.locked⟩]

-- One upstream channel record, as yielded by parse_upstream.
structure UpstreamRec where
  usid : Option String
  locked : Option String
  type : String
  frequency : Option String
  bandwidth : Option String
  power : Option String
deriving DecidableEq, Repr

def parse_upstream_elem (us : Elem) : UpstreamRec where
  usid := findtext us "usid"
  locked := pyOr (findtext us "usLocked") (findtext us "ofdmaLocked")
  type := if findPresent us "ofdmaLocked" then "OFDMA" else "SC-QAM"
  frequency := pyOr (findtext us "freq") (findtext us "centerFreq")
  bandwidth := pyOr (findtext us "bandwidth") (findtext us "width")
  power := pyOr (findtext us "power") (findtext us "repPower1_6")

def usLabels (u : UpstreamRec) : List (String × String) :=
  [("channel", labelOr u.usid), ("type", if u.type.isEmpty then "unknown" else u.type)]

-- The per-record upstream gauge emissions, in source order:
-- power, frequency, lock status.
def normalize_upstream (u : UpstreamRec) : List MetricSample :=
  let L := usLabels u
  optSample "modem_upstream_power_dbmv" "Upstream Power" L (coerceNum u.power)
    ++ optSample "modem_upstream_frequency_hz" "Upstream Frequency" L (coerceNum u.frequency)
    ++ [⟨"modem_upstream_locked", "Channel Locked (1 if locked)", L, lockedValue u.locked⟩]

-- A successfully parsed XML document, seen through the three uses the
-- exporter makes of it: status-field lookup (findtext with default ""),
-- the .//downstream element list, and the .//upstream element list.
structure Doc where
  statusFields : List (String × String)
  downstreams : List Elem
  upstreams : List Elem
deriving DecidableEq, Repr

-- parse_status: `root.findtext(".//tag", default="")` for each tag of its
-- fixed tag list; the resulting dict therefore contains every tag as a key
-- (so `"cm_docsis_mode" in status` is always true).
def parse_status_field (fields : List (String × String)) (tag : String) : String :=
  ((fields.find? (fun p => p.1 == tag)).map Prod.snd).getD ""

-- The status-block samples. Returns none when the block raises an exception
-- that is not a ValueError: `.split()[0]` on a truthy all-whitespace uptime
-- string raises IndexError, which the inner `except ValueError` does not
-- catch, so the surrounding status try/except turns it into a pass failure.
def status_samples (d : Doc) : Option (List MetricSample) :=
  let uptimeRaw := parse_status_field d.statusFields "cm_system_uptime"
  let docsis := parse_status_field d.statusFields "cm_docsis_mode"
  let uptimePart : Option (List MetricSample) :=
    if uptimeRaw.isEmpty then some []
    else
      match pySplit uptimeRaw with
      | [] => none
      | tok :: _ =>
          some (match pyFloat? tok with
                | some v => [⟨"modem_system_uptime_seconds", "System Uptime", [], v⟩]
                | none => [])
  uptimePart.map (fun up =>
    up ++ [⟨"modem_docsis_mode", "DOCSIS mode (1 for 3.1, 0 otherwise)", [],
            if strContains docsis "3.1" then 1 else 0⟩])

-- Outcome of one `session.post(.../getter.xml, data={"fun": n})` exchange:
-- either the transport raises, or a response arrives with a status code and
-- a body (none models a body on which etree.fromstring raises).
inductive FetchOut where
  | transportErr : FetchOut
  | resp : Nat → Option Doc → FetchOut
deriving DecidableEq, Repr

-- The external world of one /metrics request: the login exchange's outcome
-- and, per function identifier, the getter exchange's outcome.
structure Env where
  loginTransportErr : Bool
  loginStatusCode : Nat
  sessionTokenSet : Bool
  fetches : Nat → FetchOut

-- login(): posts credentials, then only checks for the sessionToken cookie.
-- The login HTTP status code is never examined.
def login_ok (env : Env) : Bool :=
  !env.loginTransportErr && env.sessionTokenSet

-- fetch_xml(): resp.raise_for_status() raises for 4xx/5xx codes; the body is
-- returned (still unparsed) otherwise.
def fetch_xml (env : Env) (fun_num : Nat) : Option (Option Doc) :=
  match env.fetches fun_num with
  | .transportErr => none
  | .resp code body => if 400 ≤ code ∧ code < 600 then none else some body

def downstream_doc_samples (d : Doc) : List MetricSample :=
  d.downstreams.foldr (fun e acc => normalize_downstream (parse_downstream_elem e) ++ acc) []

def upstream_doc_samples (d : Doc) : List MetricSample :=
  d.upstreams.foldr (fun e acc => normalize_upstream (parse_upstream_elem e) ++ acc) []

-- One iteration of the per-functionId loop: any fetch failure or XML parse
-- failure is caught by `except Exception: continue` and contributes nothing.
def channel_group (env : Env) (fun_num : Nat) (handle : Doc → List MetricSample) :
    List MetricSample :=
  match fetch_xml env fun_num with
  | none => []
  | some none => []
  | some (some d) => handle d

-- Result of one whole /metrics pass: the 500 "Modem login failed" response,
-- the 500 "Failed to get status" response, or the final sample set.
inductive CollectOut where
  | loginFailed : CollectOut
  | statusFailed : CollectOut
  | ok : List MetricSample → CollectOut
deriving DecidableEq, Repr

-- The metrics() handler: login, mandatory status block, then the two
-- downstream functionIds (9, 10) and the two upstream ones (6, 11).
def run_metrics (env : Env) : CollectOut :=
  if login_ok env = false then .loginFailed
  else
    match fetch_xml env 1 with
    | none => .statusFailed
    | some none => .statusFailed
    | some (some d) =>
        match status_samples d with
        | none => .statusFailed
        | some ss =>
            .ok (ss ++ channel_group env 9 downstream_doc_samples
                    ++ channel_group env 10 downstream_doc_samples
                    ++ channel_group env 6 upstream_doc_samples
                    ++ channel_group env 11 upstream_doc_samples)

-- The function identifiers actually posted to getter.xml during the pass,
-- in order: none when login fails, only fun=1 when the status block aborts
-- the pass, and the full sequence otherwise.
def fetched_funs (env : Env) : List Nat :=
  if login_ok env = false then []
  else
    match fetch_xml env 1 with
    | none => [1]
    | some none => [1]
    | some (some d) =>
        match status_samples d with
        | none => [1]
        | some _ => [1, 9, 10, 6, 11]

-- Concrete payloads and environments used by the witnesses and
-- counterexamples below.

-- A downstream element whose only unparsable numeric field is the
-- uncorrectable counter.
def c2elem : Elem :=
  [("chid", "1"), ("IsLocked", "Locked"), ("mod", "QAM256"), ("freq", "100"),
   ("pow", "1.5"), ("snr", "38.2"), ("correctable", "3"), ("uncorrectable", "x")]

-- A legacy-schema and a modern-schema upstream element carrying the same
-- semantic values.
def upLegacyElem : Elem :=
  [("usid", "1"), ("usLocked", "Locked"), ("freq", "30"), ("bandwidth", "5"), ("power", "45")]

def upModernElem : Elem :=
  [("usid", "1"), ("ofdmaLocked", "Locked"), ("centerFreq", "30"), ("width", "5"),
   ("repPower1_6", "45")]

-- An environment whose status fetch succeeds with the given status fields and
-- whose channel fetches all fail at the transport.
def statusFetches (fields : List (String × String)) : Nat → FetchOut := fun fn =>
  if fn = 1 then FetchOut.resp 200 (some ⟨fields, [], []⟩) else FetchOut.transportErr

def statusEnv (fields : List (String × String)) : Env :=
  ⟨false, 200, true, statusFetches fields⟩

-- A login response that sets no session token.
def envNoToken : Env := ⟨false, 200, false, fun _ => FetchOut.transportErr⟩

-- A login response with a non-success status code that does set the token,
-- followed by a successful status fetch.
def env403Token : Env := ⟨false, 403, true, statusFetches [("cm_docsis_mode", "3.1")]⟩

-- Status document and upstream payload for the partial-failure scenario:
-- both downstream fetches fail, upstream fun=6 succeeds, fun=11 fails.
def statusDocC5 : Doc :=
  ⟨[("cm_system_uptime", "123456 seconds"), ("cm_docsis_mode", "DOCSIS 3.1")], [], []⟩

def upDocC5 : Doc := ⟨[], [], [upLegacyElem]⟩

def fetchesC5 : Nat → FetchOut := fun fn =>
  if fn = 1 then FetchOut.resp 200 (some statusDocC5)
  else if fn = 9 then FetchOut.transportErr
  else if fn = 10 then FetchOut.resp 404 none
  else if fn = 6 then FetchOut.resp 200 (some upDocC5)
  else FetchOut.transportErr

def envC5 : Env := ⟨false, 200, true, fetchesC5⟩

def statusSamplesC5 : List MetricSample :=
  [⟨"modem_system_uptime_seconds", "System Uptime", [], 123456⟩,
   ⟨"modem_docsis_mode", "DOCSIS mode (1 for 3.1, 0 otherwise)", [], 1⟩]

-- Synthetic payload pairs encoding the same semantic values once under the
-- legacy field names and once under the modern ones.
def dsLegacyElem (c l m f p s co u : String) : Elem :=
  [("chid", c), ("IsLocked", l), ("mod", m), ("freq", f), ("pow", p), ("snr", s),
   ("correctable", co), ("uncorrectable", u)]

def dsModernElem (c l m f p s co u : String) : Elem :=
  [("dsid", c), ("ofdmIsLocked", l), ("ofdmModulation", m), ("plcFrequency", f),
   ("PLCPower", p), ("PlcScAvgMer", s), ("ofdmCorrected", co), ("ofdmUncorrectable", u)]

def usLegacyElemOf (vid vlock vfreq vbw vpow : String) : Elem :=
  [("usid", vid), ("usLocked", vlock), ("freq", vfreq), ("bandwidth", vbw), ("power", vpow)]

def usModernElemOf (vid vlock vfreq vbw vpow : String) : Elem :=
  [("usid", vid), ("ofdmaLocked", vlock), ("centerFreq", vfreq), ("width", vbw),
   ("repPower1_6", vpow)]


-- Facts about Python truthiness and the `or` fallback chains.

theorem isEmpty_false_of_ne (v : String) (h : v ≠ "") : v.isEmpty = false := by
  cases hv : v.isEmpty
  · rfl
  · exact absurd ((String.isEmpty_iff v).mp hv) h

theorem empty_isEmpty : ("" : String).isEmpty = true := rfl

theorem truthy_some_of_ne (v : String) (h : v ≠ "") : truthy (some v) = true := by
  simp [truthy, isEmpty_false_of_ne v h]

theorem pyOr_some_of_ne (v : String) (b : Option String) (h : v ≠ "") :
    pyOr (some v) b = some v := by
  simp [pyOr, isEmpty_false_of_ne v h]

theorem pyOr_some_empty (b : Option String) : pyOr (some "") b = b := rfl

theorem pyOr_none_left (b : Option String) : pyOr none b = b := rfl

theorem orElseStr_empty_default (o : Option String) : orElseStr o "" = o.getD "" := by
  cases o with
  | none => rfl
  | some s =>
    by_cases h : s = ""
    · subst h; rfl
    · simp [orElseStr, isEmpty_false_of_ne s h]

-- The two schema generations are observationally equal through each reading
-- the normalizer performs on a resolved field.

theorem labelOr_flip (v : String) : labelOr (pyOr (some v) none) = labelOr (pyOr none (some v)) := by
  by_cases h : v = ""
  · subst h; rfl
  · simp [pyOr_some_of_ne v _ h, pyOr_none_left]

theorem coerceNum_flip (v : String) :
    coerceNum (pyOr (some v) none) = coerceNum (pyOr none (some v)) := by
  by_cases h : v = ""
  · subst h; rfl
  · simp [pyOr_some_of_ne v _ h, pyOr_none_left]

theorem lockedValue_flip (v : String) :
    lockedValue (pyOr (some v) none) = lockedValue (pyOr none (some v)) := by
  by_cases h : v = ""
  · subst h; rfl
  · simp [pyOr_some_of_ne v _ h, pyOr_none_left]

theorem orElseStr_flip (v d : String) :
    orElseStr (pyOr (some v) none) d = orElseStr (pyOr none (some v)) d := by
  by_cases h : v = ""
  · subst h; rfl
  · simp [pyOr_some_of_ne v _ h, pyOr_none_left]

-- The downstream normalizer reads a record only through these observations.
theorem normalize_downstream_congr (d1 d2 : DownstreamRec)
    (h1 : labelOr d1.chid = labelOr d2.chid)
    (h2 : labelOr d1.modulation = labelOr d2.modulation)
    (h3 : coerceNum d1.power = coerceNum d2.power)
    (h4 : coerceNum d1.snr = coerceNum d2.snr)
    (h5 : d1.corrected = d2.corrected)
    (h6 : d1.uncorrectables = d2.uncorrectables)
    (h7 : lockedValue d1.locked = lockedValue d2.locked) :
    normalize_downstream d1 = normalize_downstream d2 := by
  simp [normalize_downstream, dsLabels, h1, h2, h3, h4, h5, h6, h7]

-- Which metric names occur among a record's samples, by field parse outcome.
theorem downstream_name_mem (d : DownstreamRec) :
    ((∃ m ∈ normalize_downstream d, m.name = "modem_downstream_power_dbmv") ↔
      (coerceNum d.power).isSome = true) ∧
    ((∃ m ∈ normalize_downstream d, m.name = "modem_downstream_snr_db") ↔
      (coerceNum d.snr).isSome = true) ∧
    ((∃ m ∈ normalize_downstream d, m.name = "modem_downstream_corrected") ↔
      ((pyInt? d.corrected).isSome = true ∧ (pyInt? d.uncorrectables).isSome = true)) ∧
    ((∃ m ∈ normalize_downstream d, m.name = "modem_downstream_uncorrectable") ↔
      ((pyInt? d.corrected).isSome = true ∧ (pyInt? d.uncorrectables).isSome = true)) ∧
    (∃ m ∈ normalize_downstream d, m.name = "modem_downstream_locked") := by
  rcases hp : coerceNum d.power with _ | vp <;>
  rcases hs : coerceNum d.snr with _ | vs <;>
  rcases hc : pyInt? d.corrected with _ | vc <;>
  rcases hu : pyInt? d.uncorrectables with _ | vu <;>
    simp [normalize_downstream, optSample, counterSamples, hp, hs, hc, hu]

theorem upstream_name_mem (u : UpstreamRec) :
    ((∃ m ∈ normalize_upstream u, m.name = "modem_upstream_power_dbmv") ↔
      (coerceNum u.power).isSome = true) ∧
    ((∃ m ∈ normalize_upstream u, m.name = "modem_upstream_frequency_hz") ↔
      (coerceNum u.frequency).isSome = true) ∧
    (∃ m ∈ normalize_upstream u, m.name = "modem_upstream_locked") := by
  rcases hp : coerceNum u.power with _ | vp <;>
  rcases hf : coerceNum u.frequency with _ | vf <;>
    simp [normalize_upstream, optSample, hp, hf]

/-- C4: if the authentication response carries no session token then, whatever
the login HTTP status code and whatever the other endpoints would answer, the
pass ends in the top-level login failure and no getter request is issued. -/
theorem C4_no_token_aborts (env : Env) (h : env.sessionTokenSet = false) :
    run_metrics env = CollectOut.loginFailed ∧ fetched_funs env = [] := by
  have hl : login_ok env = false := by simp [login_ok, h]
  constructor <;> simp [run_metrics, fetched_funs, hl]

/-- C4 witness: a token-less 200 login response aborts the concrete pass. -/
theorem C4_witness :
    run_metrics envNoToken = CollectOut.loginFailed ∧ fetched_funs envNoToken = [] :=
  C4_no_token_aborts envNoToken rfl

/-- C10: a login exchange that sets the session token cookie authenticates the
pass regardless of the login response status code: the code never reads that
code, so the pass is never the login failure and fetching proceeds, starting
with the status functionId 1. -/
theorem C10_token_suffices (env : Env)
    (h1 : env.loginTransportErr = false) (h2 : env.sessionTokenSet = true) :
    run_metrics env ≠ CollectOut.loginFailed ∧ (fetched_funs env).head? = some 1 ∧
    (∀ c, run_metrics { env with loginStatusCode := c } = run_metrics env) := by
  have hl : login_ok env = true := by simp [login_ok, h1, h2]
  refine ⟨?_, ?_, fun c => rfl⟩ <;>
    rcases hx : fetch_xml env 1 with _ | (_ | d) <;>
      simp [run_metrics, fetched_funs, hl, hx] <;>
        rcases hs : status_samples d with _ | ss <;> simp [hs]

/-- C10 witness: a 403 login response that sets the token still yields a
normal pass. -/
theorem C10_witness :
    run_metrics env403Token ≠ CollectOut.loginFailed ∧
    (fetched_funs env403Token).head? = some 1 :=
  ⟨(C10_token_suffices env403Token rfl rfl).1, (C10_token_suffices env403Token rfl rfl).2.1⟩

/-- C1 counterexample: a payload carrying both the legacy name (chid, with the
present-but-empty value "") and the modern name (dsid = "5") resolves to the
modern value, not the legacy one, because the `or` chain skips falsy values. -/
theorem C1_counterexample :
    (parse_downstream_elem [("chid", ""), ("dsid", "5")]).chid = some "5" ∧
    (parse_downstream_elem [("chid", ""), ("dsid", "5")]).chid ≠ some "" := by decide

/-- C1 amended: resolution selects the first candidate in the per-field chain
whose value is present AND non-empty (Python truthiness), so with both names
present the legacy value wins exactly when it is non-empty, and a
present-but-empty legacy value falls through to the modern candidate. -/
theorem C1_amended (e : Elem) (s : String) (hs : s ≠ "") :
    (findtext e "chid" = some s → (parse_downstream_elem e).chid = some s) ∧
    (findtext e "chid" = some "" → (parse_downstream_elem e).chid = findtext e "dsid") ∧
    (findtext e "IsLocked" = some s → (parse_downstream_elem e).locked = some s) ∧
    (findtext e "IsLocked" = some "" →
      (parse_downstream_elem e).locked = findtext e "ofdmIsLocked") ∧
    (findtext e "mod" = some s → (parse_downstream_elem e).modulation = some s) ∧
    (findtext e "mod" = some "" →
      (parse_downstream_elem e).modulation = findtext e "ofdmModulation") ∧
    (findtext e "freq" = some s → (parse_downstream_elem e).frequency = some s) ∧
    (findtext e "freq" = some "" →
      (parse_downstream_elem e).frequency = findtext e "plcFrequency") ∧
    (findtext e "pow" = some s → (parse_downstream_elem e).power = some s) ∧
    (findtext e "pow" = some "" → (parse_downstream_elem e).power = findtext e "PLCPower") ∧
    (findtext e "snr" = some s → (parse_downstream_elem e).snr = some s) ∧
    (findtext e "snr" = some "" → (parse_downstream_elem e).snr = findtext e "PlcScAvgMer") ∧
    (findtext e "correctable" = some s → (parse_downstream_elem e).corrected = s) ∧
    (findtext e "uncorrectable" = some s → (parse_downstream_elem e).uncorrectables = s) ∧
    (findtext e "usLocked" = some s → (parse_upstream_elem e).locked = some s) ∧
    (findtext e "usLocked" = some "" →
      (parse_upstream_elem e).locked = findtext e "ofdmaLocked") ∧
    (findtext e "freq" = some s → (parse_upstream_elem e).frequency = some s) ∧
    (findtext e "freq" = some "" →
      (parse_upstream_elem e).frequency = findtext e "centerFreq") ∧
    (findtext e "bandwidth" = some s → (parse_upstream_elem e).bandwidth = some s) ∧
    (findtext e "bandwidth" = some "" →
      (parse_upstream_elem e).bandwidth = findtext e "width") ∧
    (findtext e "power" = some s → (parse_upstream_elem e).power = some s) ∧
    (findtext e "power" = some "" →
      (parse_upstream_elem e).power = findtext e "repPower1_6") := by
  refine ⟨?_, ?_, ?_, ?_, ?_, ?_, ?_, ?_, ?_, ?_, ?_, ?_, ?_, ?_, ?_, ?_, ?_, ?_, ?_, ?_, ?_, ?_⟩ <;>
    intro h <;>
      simp [parse_downstream_elem, parse_upstream_elem, h, pyOr, orElseStr,
        isEmpty_false_of_ne s hs, empty_isEmpty]

/-- C1 amended witness: with both names present and the legacy value non-empty
the legacy value is returned. -/
theorem C1_amended_witness :
    (parse_downstream_elem [("chid", "7"), ("dsid", "9")]).chid = some "7" :=
  (C1_amended [("chid", "7"), ("dsid", "9")] "7" (by decide)).1 (by decide)

/-- C2 counterexample: in this record only the uncorrectable counter fails to
parse, yet its whole output (shown in full) also lacks the corrected-counter
sample, because both counters are parsed inside one guarded block. -/
theorem C2_counterexample :
    pyInt? (parse_downstream_elem c2elem).corrected = some 3 ∧
    pyInt? (parse_downstream_elem c2elem).uncorrectables = none ∧
    normalize_downstream (parse_downstream_elem c2elem) =
      [⟨"modem_downstream_power_dbmv", "Downstream Power",
        [("channel", "1"), ("modulation", "QAM256")], mkRat 3 2⟩,
       ⟨"modem_downstream_snr_db", "Downstream SNR",
        [("channel", "1"), ("modulation", "QAM256")], mkRat 191 5⟩,
       ⟨"modem_downstream_locked", "Channel Locked (1 if locked)",
        [("channel", "1"), ("modulation", "QAM256")], 1⟩] := by decide

/-- C2 amended: a failing power or SNR parse omits only its own sample, and
the lock sample is always present; the corrected and uncorrectable counters,
however, are parsed jointly, so either counter's parse failure omits both
counter samples (each counter sample is present iff both counters parse). -/
theorem C2_amended (d : DownstreamRec) :
    ((∃ m ∈ normalize_downstream d, m.name = "modem_downstream_power_dbmv") ↔
      (coerceNum d.power).isSome = true) ∧
    ((∃ m ∈ normalize_downstream d, m.name = "modem_downstream_snr_db") ↔
      (coerceNum d.snr).isSome = true) ∧
    ((∃ m ∈ normalize_downstream d, m.name = "modem_downstream_corrected") ↔
      ((pyInt? d.corrected).isSome = true ∧ (pyInt? d.uncorrectables).isSome = true)) ∧
    ((∃ m ∈ normalize_downstream d, m.name = "modem_downstream_uncorrectable") ↔
      ((pyInt? d.corrected).isSome = true ∧ (pyInt? d.uncorrectables).isSome = true)) ∧
    (∃ m ∈ normalize_downstream d, m.name = "modem_downstream_locked") :=
  downstream_name_mem d

/-- C3 counterexample: a record with no power field at all still yields a
power sample, with the substitute value 0, because the code coerces
`float(field or 0)`. -/
theorem C3_counterexample :
    (parse_downstream_elem [("chid", "1")]).power = none ∧
    MetricSample.mk "modem_downstream_power_dbmv" "Downstream Power"
        [("channel", "1"), ("modulation", "unknown")] 0
      ∈ normalize_downstream (parse_downstream_elem [("chid", "1")]) := by decide

/-- C3 amended: a present, non-empty numeric value that fails float parsing is
silently omitted (no zero substitute); but an absent or empty numeric field is
coerced to 0 and a zero-valued sample IS emitted, and the resolver defaults
absent counters to the string "0". -/
theorem C3_amended (d : DownstreamRec) (u : UpstreamRec) :
    (∀ s, d.power = some s → s ≠ "" → pyFloat? s = none →
      ∀ m ∈ normalize_downstream d, m.name ≠ "modem_downstream_power_dbmv") ∧
    (∀ s, d.snr = some s → s ≠ "" → pyFloat? s = none →
      ∀ m ∈ normalize_downstream d, m.name ≠ "modem_downstream_snr_db") ∧
    (∀ s, u.power = some s → s ≠ "" → pyFloat? s = none →
      ∀ m ∈ normalize_upstream u, m.name ≠ "modem_upstream_power_dbmv") ∧
    (∀ s, u.frequency = some s → s ≠ "" → pyFloat? s = none →
      ∀ m ∈ normalize_upstream u, m.name ≠ "modem_upstream_frequency_hz") ∧
    (d.power = none →
      MetricSample.mk "modem_downstream_power_dbmv" "Downstream Power" (dsLabels d) 0
        ∈ normalize_downstream d) ∧
    (d.power = some "" →
      MetricSample.mk "modem_downstream_power_dbmv" "Downstream Power" (dsLabels d) 0
        ∈ normalize_downstream d) ∧
    (parse_downstream_elem []).corrected = "0" ∧
    (parse_downstream_elem []).uncorrectables = "0" := by
  refine ⟨?_, ?_, ?_, ?_, ?_, ?_, rfl, rfl⟩
  · intro s hps hne hpf m hm hname
    have hn : (coerceNum d.power).isSome = true :=
      (downstream_name_mem d).1.mp ⟨m, hm, hname⟩
    simp [coerceNum, hps, isEmpty_false_of_ne s hne, hpf] at hn
  · intro s hps hne hpf m hm hname
    have hn : (coerceNum d.snr).isSome = true :=
      (downstream_name_mem d).2.1.mp ⟨m, hm, hname⟩
    simp [coerceNum, hps, isEmpty_false_of_ne s hne, hpf] at hn
  · intro s hps hne hpf m hm hname
    have hn : (coerceNum u.power).isSome = true :=
      (upstream_name_mem u).1.mp ⟨m, hm, hname⟩
    simp [coerceNum, hps, isEmpty_false_of_ne s hne, hpf] at hn
  · intro s hps hne hpf m hm hname
    have hn : (coerceNum u.frequency).isSome = true :=
      (upstream_name_mem u).2.1.mp ⟨m, hm, hname⟩
    simp [coerceNum, hps, isEmpty_false_of_ne s hne, hpf] at hn
  · intro hp
    simp [normalize_downstream, optSample, coerceNum, hp]
  · intro hp
    simp [normalize_downstream, optSample, coerceNum, hp, empty_isEmpty]

/-- C3 amended witness: the record with power "abc" (present, non-empty,
unparsable) emits no power sample at all. -/
theorem C3_amended_witness :
    MetricSample.mk "modem_downstream_power_dbmv" "Downstream Power"
        (dsLabels (parse_downstream_elem [("pow", "abc")])) 0
      ∉ normalize_downstream (parse_downstream_elem [("pow", "abc")]) :=
  fun hmem =>
    (C3_amended (parse_downstream_elem [("pow", "abc")]) (parse_upstream_elem [])).1
      "abc" (by decide) (by decide) (by decide) _ hmem rfl

/-- C6: every downstream and upstream record always emits its lock sample,
whose value is 1 exactly when the lowercased lock value is one of "1", "yes",
"locked" (an absent field behaves as ""), and 0 in every other case. -/
theorem C6_lock_always (d : DownstreamRec) (u : UpstreamRec) (o : Option String) :
    (MetricSample.mk "modem_downstream_locked" "Channel Locked (1 if locked)"
        (dsLabels d) (lockedValue d.locked) ∈ normalize_downstream d) ∧
    (MetricSample.mk "modem_upstream_locked" "Channel Locked (1 if locked)"
        (usLabels u) (lockedValue u.locked) ∈ normalize_upstream u) ∧
    (lockedValue o = 1 ↔
      (lowerStr (o.getD "") = "1" ∨ lowerStr (o.getD "") = "yes" ∨
        lowerStr (o.getD "") = "locked")) ∧
    (lockedValue o = 0 ↔
      ¬(lowerStr (o.getD "") = "1" ∨ lowerStr (o.getD "") = "yes" ∨
        lowerStr (o.getD "") = "locked")) ∧
    lockedValue none = 0 := by
  have hv : lockedValue o =
      if lowerStr (o.getD "") = "1" ∨ lowerStr (o.getD "") = "yes" ∨
          lowerStr (o.getD "") = "locked" then 1 else 0 := by
    simp [lockedValue, orElseStr_empty_default]
  refine ⟨by simp [normalize_downstream], by simp [normalize_upstream], ?_, ?_, by decide⟩ <;>
    by_cases hc : (lowerStr (o.getD "") = "1" ∨ lowerStr (o.getD "") = "yes" ∨
        lowerStr (o.getD "") = "locked") <;>
      simp [hv, hc]

/-- C8: the upstream record's type is derived from element shape, not looked
up: it is "OFDMA" exactly when an ofdmaLocked child element is present, and
"SC-QAM" exactly otherwise. -/
theorem C8_type_derived (e : Elem) :
    (parse_upstream_elem e).type =
      (if findPresent e "ofdmaLocked" then "OFDMA" else "SC-QAM") ∧
    ((parse_upstream_elem e).type = "OFDMA" ↔ findPresent e "ofdmaLocked" = true) ∧
    ((parse_upstream_elem e).type = "SC-QAM" ↔ findPresent e "ofdmaLocked" = false) := by
  refine ⟨rfl, ?_, ?_⟩ <;> cases h : findPresent e "ofdmaLocked" <;>
    simp [parse_upstream_elem, h]

/-- C9 counterexample: a legacy and a modern upstream payload carrying the
same semantic values do NOT yield identical sample sets: the legacy one's lock
sample carries the label ("type", "SC-QAM"), which appears in no sample of the
modern one's output. -/
theorem C9_counterexample :
    (MetricSample.mk "modem_upstream_locked" "Channel Locked (1 if locked)"
        [("channel", "1"), ("type", "SC-QAM")] 1
      ∈ normalize_upstream (parse_upstream_elem upLegacyElem)) ∧
    (MetricSample.mk "modem_upstream_locked" "Channel Locked (1 if locked)"
        [("channel", "1"), ("type", "SC-QAM")] 1
      ∉ normalize_upstream (parse_upstream_elem upModernElem)) := by decide

/-- C9 amended: schema transparency holds for downstream payloads (identical
sample lists for any semantically equivalent legacy/modern pair), and for
upstream payloads it holds only up to the derived type label: all resolved
observations agree, but the legacy record's type is "SC-QAM" while the modern
record's is "OFDMA", so their upstream samples differ exactly in that label. -/
theorem C9_amended (c l m f p s co u vid vlock vfreq vbw vpow : String) :
    (normalize_downstream (parse_downstream_elem (dsLegacyElem c l m f p s co u)) =
      normalize_downstream (parse_downstream_elem (dsModernElem c l m f p s co u))) ∧
    (parse_upstream_elem (usLegacyElemOf vid vlock vfreq vbw vpow)).type = "SC-QAM" ∧
    (parse_upstream_elem (usModernElemOf vid vlock vfreq vbw vpow)).type = "OFDMA" ∧
    coerceNum (parse_upstream_elem (usLegacyElemOf vid vlock vfreq vbw vpow)).power =
      coerceNum (parse_upstream_elem (usModernElemOf vid vlock vfreq vbw vpow)).power ∧
    coerceNum (parse_upstream_elem (usLegacyElemOf vid vlock vfreq vbw vpow)).frequency =
      coerceNum (parse_upstream_elem (usModernElemOf vid vlock vfreq vbw vpow)).frequency ∧
    lockedValue (parse_upstream_elem (usLegacyElemOf vid vlock vfreq vbw vpow)).locked =
      lockedValue (parse_upstream_elem (usModernElemOf vid vlock vfreq vbw vpow)).locked ∧
    labelOr (parse_upstream_elem (usLegacyElemOf vid vlock vfreq vbw vpow)).usid =
      labelOr (parse_upstream_elem (usModernElemOf vid vlock vfreq vbw vpow)).usid := by
  refine ⟨normalize_downstream_congr _ _ (labelOr_flip c) (labelOr_flip m)
      (coerceNum_flip p) (coerceNum_flip s) (orElseStr_flip co "0") (orElseStr_flip u "0")
      (lockedValue_flip l),
    rfl, rfl, coerceNum_flip vpow, coerceNum_flip vfreq, lockedValue_flip vlock, rfl⟩

/-- C5: once login and the status block succeed, the pass always ends in the
ok outcome whose samples are the status samples followed by each channel
functionId's own contribution; a functionId whose fetch fails at the
transport, returns a 4xx/5xx status, or returns unparsable XML contributes
the empty list, while a successful functionId contributes all samples of its
payload — so one group's failure never disturbs another's samples. -/
theorem C5_partial_isolation (env : Env) (d0 : Doc) (ss : List MetricSample)
    (h1 : login_ok env = true)
    (h2 : fetch_xml env 1 = some (some d0))
    (h3 : status_samples d0 = some ss) :
    run_metrics env = CollectOut.ok
      (ss ++ channel_group env 9 downstream_doc_samples
          ++ channel_group env 10 downstream_doc_samples
          ++ channel_group env 6 upstream_doc_samples
          ++ channel_group env 11 upstream_doc_samples) ∧
    (∀ fn handle, env.fetches fn = FetchOut.transportErr →
      channel_group env fn handle = []) ∧
    (∀ fn handle code body, env.fetches fn = FetchOut.resp code body →
      400 ≤ code → code < 600 → channel_group env fn handle = []) ∧
    (∀ fn handle code, env.fetches fn = FetchOut.resp code none →
      channel_group env fn handle = []) ∧
    (∀ fn handle code d, env.fetches fn = FetchOut.resp code (some d) →
      ¬(400 ≤ code ∧ code < 600) → channel_group env fn handle = handle d) := by
  refine ⟨?_, ?_, ?_, ?_, ?_⟩
  · simp [run_metrics, h1, h2, h3]
  · intro fn handle hf; simp [channel_group, fetch_xml, hf]
  · intro fn handle code body hf hge hlt
    simp [channel_group, fetch_xml, hf, hge, hlt]
  · intro fn handle code hf
    by_cases hc : 400 ≤ code ∧ code < 600 <;> simp [channel_group, fetch_xml, hf, hc]
  · intro fn handle code d hf hc
    simp [channel_group, fetch_xml, hf, hc]

/-- C5 witness: both downstream fetches fail (transport error and a 404),
upstream fun=6 succeeds and fun=11 fails; the pass succeeds with the status
samples, zero downstream samples and all upstream samples. -/
theorem C5_witness :
    run_metrics envC5 = CollectOut.ok
      (statusSamplesC5 ++ [] ++ [] ++ upstream_doc_samples upDocC5 ++ []) := by
  have h := C5_partial_isolation envC5 statusDocC5 statusSamplesC5
    (by decide) (by decide) (by decide)
  rw [h.1]; decide

/-- C7 counterexample: the uptime string " " is non-empty, but the pass fails
at top level with the status failure instead of omitting the uptime sample:
" ".split() is empty, so [0] raises IndexError, which the inner
`except ValueError` does not catch. -/
theorem C7_counterexample :
    (" " : String) ≠ "" ∧
    run_metrics (statusEnv [("cm_system_uptime", " ")]) = CollectOut.statusFailed := by
  decide

/-- C7 amended: for an uptime string containing at least one non-whitespace
character, only the leading whitespace-delimited token is float-parsed
("123456 seconds" yields 123456.0) and a token that fails to parse
("garbage") silently omits just the uptime sample; but a non-empty uptime
string consisting only of whitespace fails the whole pass at top level. -/
theorem C7_amended :
    (run_metrics (statusEnv
        [("cm_system_uptime", "123456 seconds"), ("cm_docsis_mode", "3.1")]) =
      CollectOut.ok
        [⟨"modem_system_uptime_seconds", "System Uptime", [], 123456⟩,
         ⟨"modem_docsis_mode", "DOCSIS mode (1 for 3.1, 0 otherwise)", [], 1⟩]) ∧
    (run_metrics (statusEnv [("cm_system_uptime", "garbage")]) =
      CollectOut.ok
        [⟨"modem_docsis_mode", "DOCSIS mode (1 for 3.1, 0 otherwise)", [], 0⟩]) ∧
    (∀ u tok rest, pySplit u = tok :: rest →
      status_samples ⟨[("cm_system_uptime", u)], [], []⟩ =
        some ((match pyFloat? tok with
               | some v => [⟨"modem_system_uptime_seconds", "System Uptime", [], v⟩]
               | none => []) ++
          [⟨"modem_docsis_mode", "DOCSIS mode (1 for 3.1, 0 otherwise)", [], 0⟩])) ∧
    (∀ u, u ≠ "" → pySplit u = [] →
      run_metrics (statusEnv [("cm_system_uptime", u)]) = CollectOut.statusFailed) := by
  refine ⟨by decide, by decide, ?_, ?_⟩
  · intro u tok rest hsplit
    have hne : u ≠ "" := by
      intro he; subst he; simp [pySplit, splitWsAux] at hsplit
    have e1 : parse_status_field [("cm_system_uptime", u)] "cm_system_uptime" = u := rfl
    have e2 : parse_status_field [("cm_system_uptime", u)] "cm_docsis_mode" = "" := rfl
    simp [status_samples, e1, e2, isEmpty_false_of_ne u hne, hsplit, strContains,
      containsSub, beginsWith]
  · intro u hne hsplit
    have e1 : parse_status_field [("cm_system_uptime", u)] "cm_system_uptime" = u := rfl
    have hs : status_samples ⟨[("cm_system_uptime", u)], [], []⟩ = none := by
      simp [status_samples, e1, isEmpty_false_of_ne u hne, hsplit]
    simp [run_metrics, statusEnv, statusFetches, fetch_xml, login_ok, hs]

/-- C7 amended witness: an uptime string with a parsable leading token and
trailing units yields exactly the leading token's value. -/
theorem C7_amended_witness :
    status_samples ⟨[("cm_system_uptime", "77 boxes")], [], []⟩ =
      some [⟨"modem_system_uptime_seconds", "System Uptime", [], 77⟩,
            ⟨"modem_docsis_mode", "DOCSIS mode (1 for 3.1, 0 otherwise)", [], 0⟩] := by
  have h := C7_amended.2.2.1 "77 boxes" "77" ["boxes"] (by decide)
  rw [h]; decide
end SB8200
